import Mathlib

/-!
Verification of the search-criteria submission contract of the
french-data-explorer form component.

The repository contains two variants of the same form:

* Variant A (BusinessScraperForm.tsx, French field keys): the criteria are
  serialized into a multipart body, keeping only entries whose value is
  different from the empty string and different from the boolean false.
* Variant B (second form file, English field keys): the criteria object is
  serialized with JSON.stringify, which keeps every field unconditionally.

Both variants share the same submit skeleton: build the payload, POST it to
the scrape endpoint, throw on a non-ok HTTP status, otherwise download the
response body as a CSV file named after the current date, with a success or
error notification and an unconditional reset of the busy flag.
-/

/-- A field value of variant A: the TS interface mixes strings and booleans. -/
inductive FieldVal where
  | str : String → FieldVal
  | boolean : Bool → FieldVal
  deriving DecidableEq, Repr

/-- JS value.toString(), as applied when appending to the multipart body. -/
def valToString : FieldVal → String
  | FieldVal.str s => s
  | FieldVal.boolean b => if b then "true" else "false"

/-- The filter of variant A handleSubmit: keep a value when it is neither
the empty string nor the boolean false. -/
def keepVal : FieldVal → Bool
  | FieldVal.str s => s != ""
  | FieldVal.boolean b => b

/-- The fields of variant A FormData, in object-literal order. -/
inductive FieldA where
  | region | ville | codePostal | secteur | nombreMax | codeNaf
  | tailleEntreprise | formeJuridique | caMinimum | caMaximum
  | anneeCreation | statut | exclureFranchises
  deriving DecidableEq, Fintype, Repr

/-- A variant A criteria object: a total assignment of values to fields,
mirroring a JS object with these keys. -/
def FormDataA : Type := FieldA → FieldVal

/-- The JS property key of each variant A field. -/
def keyNameA : FieldA → String
  | FieldA.region => "region"
  | FieldA.ville => "ville"
  | FieldA.codePostal => "codePostal"
  | FieldA.secteur => "secteur"
  | FieldA.nombreMax => "nombreMax"
  | FieldA.codeNaf => "codeNaf"
  | FieldA.tailleEntreprise => "tailleEntreprise"
  | FieldA.formeJuridique => "formeJuridique"
  | FieldA.caMinimum => "caMinimum"
  | FieldA.caMaximum => "caMaximum"
  | FieldA.anneeCreation => "anneeCreation"
  | FieldA.statut => "statut"
  | FieldA.exclureFranchises => "exclureFranchises"

/-- Insertion order of the variant A useState object literal; this is the
order Object.entries enumerates. -/
def fieldOrderA : List FieldA :=
  [FieldA.region, FieldA.ville, FieldA.codePostal, FieldA.secteur,
   FieldA.nombreMax, FieldA.codeNaf, FieldA.tailleEntreprise,
   FieldA.formeJuridique, FieldA.caMinimum, FieldA.caMaximum,
   FieldA.anneeCreation, FieldA.statut, FieldA.exclureFranchises]

/-- The initial variant A criteria passed to useState. -/
def defaultFormDataA : FormDataA := fun f =>
  match f with
  | FieldA.nombreMax => FieldVal.str "100"
  | FieldA.statut => FieldVal.str "active"
  | FieldA.exclureFranchises => FieldVal.boolean false
  | _ => FieldVal.str ""

/-- Object.entries of a variant A criteria object. -/
def entriesA (fd : FormDataA) : List (String × FieldVal) :=
  fieldOrderA.map fun f => (keyNameA f, fd f)

/-- The multipart body built by variant A handleSubmit: every entry whose
value is neither the empty string nor false, stringified. -/
def serializeA (fd : FormDataA) : List (String × String) :=
  (entriesA fd).filterMap fun kv =>
    if keepVal kv.2 then some (kv.1, valToString kv.2) else none

/-- The fields of variant B FormData, in object-literal order. -/
inductive FieldB where
  | location | searchTerms | maxResults | fiberEligibility | nafCodes
  | legalForms | employeeSize | creationYearMin | creationYearMax
  | excludeFranchises
  deriving DecidableEq, Fintype, Repr

/-- A variant B criteria object: every field holds a string. -/
def FormDataB : Type := FieldB → String

/-- The JS property key of each variant B field. -/
def keyNameB : FieldB → String
  | FieldB.location => "location"
  | FieldB.searchTerms => "searchTerms"
  | FieldB.maxResults => "maxResults"
  | FieldB.fiberEligibility => "fiberEligibility"
  | FieldB.nafCodes => "nafCodes"
  | FieldB.legalForms => "legalForms"
  | FieldB.employeeSize => "employeeSize"
  | FieldB.creationYearMin => "creationYearMin"
  | FieldB.creationYearMax => "creationYearMax"
  | FieldB.excludeFranchises => "excludeFranchises"

/-- Insertion order of the variant B useState object literal. -/
def fieldOrderB : List FieldB :=
  [FieldB.location, FieldB.searchTerms, FieldB.maxResults,
   FieldB.fiberEligibility, FieldB.nafCodes, FieldB.legalForms,
   FieldB.employeeSize, FieldB.creationYearMin, FieldB.creationYearMax,
   FieldB.excludeFranchises]

/-- The initial variant B criteria passed to useState. -/
def defaultFormDataB : FormDataB := fun f =>
  match f with
  | FieldB.maxResults => "100"
  | FieldB.fiberEligibility => "already-fiber"
  | FieldB.employeeSize => "all"
  | FieldB.excludeFranchises => "no"
  | _ => ""

/-- The JSON body built by variant B handleSubmit: JSON.stringify keeps
every key with its value, in insertion order. -/
def payloadB (fd : FormDataB) : List (String × String) :=
  fieldOrderB.map fun f => (keyNameB f, fd f)

/-- Both handleInputChange functions: functional update of one key via the
spread-plus-computed-key pattern. -/
def handleInputChange {F V : Type} [DecidableEq F]
    (prev : F → V) (f : F) (v : V) : F → V :=
  fun g => if g = f then v else prev g

/-- A calendar date, standing in for the current date at submit time. -/
structure Date where
  year : Nat
  month : Nat
  day : Nat
  deriving DecidableEq, Repr

/-- Two-digit zero padding of a date component. -/
def pad2 (n : Nat) : String :=
  if n < 10 then "0" ++ toString n else toString n

/-- Four-digit zero padding of a year. -/
def pad4 (n : Nat) : String :=
  if n < 10 then "000" ++ toString n
  else if n < 100 then "00" ++ toString n
  else if n < 1000 then "0" ++ toString n
  else toString n

/-- The date part of Date.toISOString, i.e. YYYY-MM-DD. -/
def isoDate (d : Date) : String :=
  pad4 d.year ++ "-" ++ pad2 d.month ++ "-" ++ pad2 d.day

/-- The filename derived in handleSubmit from the current date. -/
def csvFilename (d : Date) : String :=
  "entreprises_" ++ isoDate d ++ ".csv"

/-- An HTTP response as observed by the submit handler. -/
structure HttpResponse where
  status : Nat
  body : String
  deriving DecidableEq, Repr

/-- The fetch Response.ok predicate: status in the 2xx range. -/
def respOk (r : HttpResponse) : Bool :=
  decide (200 ≤ r.status ∧ r.status < 300)

/-- Observable effects of one submission attempt. -/
structure SubmitOutcome where
  payload : List (String × String)
  download : Option (String × String)
  successToast : Bool
  errorToast : Bool
  thrown : Option String
  deriving DecidableEq, Repr

/-- The shared submit skeleton of both variants, given the already-built
payload and the fetch result (Except.error is a network failure). It
mirrors the try/catch of handleSubmit: a non-ok status throws an error
carrying the status code; every caught error produces the error toast; a
2xx response downloads the body under the date-derived filename. -/
def submitCore (p : List (String × String)) (now : Date)
    (res : Except String HttpResponse) : SubmitOutcome :=
  match res with
  | Except.error e =>
      { payload := p, download := none, successToast := false,
        errorToast := true, thrown := some e }
  | Except.ok r =>
      if respOk r then
        { payload := p, download := some (csvFilename now, r.body),
          successToast := true, errorToast := false, thrown := none }
      else
        { payload := p, download := none, successToast := false,
          errorToast := true,
          thrown := some ("Erreur HTTP: " ++ toString r.status) }

/-- The component state around one criteria object: the busy flag plus the
criteria. -/
structure FormState (D : Type) where
  isLoading : Bool
  formData : D

/-- The submit button disabled attribute: disabled exactly while loading. -/
def triggerDisabled {D : Type} (s : FormState D) : Bool :=
  s.isLoading

/-- One full run of handleSubmit from a given state: the busy flag is set,
the request runs, and the finally block clears the busy flag on every
path; the handler never writes the criteria. -/
def handleSubmitFull {D : Type} (serialize : D → List (String × String))
    (now : Date) (s : FormState D) (res : Except String HttpResponse) :
    SubmitOutcome × FormState D :=
  let busy : FormState D := { isLoading := true, formData := s.formData }
  let out := submitCore (serialize busy.formData) now res
  (out, { isLoading := false, formData := busy.formData })

/-- A click on the submit trigger: while the button is disabled the event
never fires, so a click during a pending request is ignored and produces
no outcome at all. -/
def submitClick {D : Type} (serialize : D → List (String × String))
    (now : Date) (s : FormState D) (res : Except String HttpResponse) :
    Option SubmitOutcome × FormState D :=
  if s.isLoading then (none, s)
  else
    let r := handleSubmitFull serialize now s res
    (some r.1, r.2)

/-- A string all of whose characters are digits, the content a number input
lets through. -/
def numericStr (s : String) : Bool :=
  s.toList.all fun c => c.isDigit

/-- Values each variant A control can hand to handleInputChange: free text
inputs accept any string, number inputs numeric strings, the size select
its four options, the status radio its two values, the franchise checkbox
any boolean. -/
def allowedA : FieldA → FieldVal → Bool
  | FieldA.region, FieldVal.str _ => true
  | FieldA.ville, FieldVal.str _ => true
  | FieldA.codePostal, FieldVal.str _ => true
  | FieldA.secteur, FieldVal.str _ => true
  | FieldA.nombreMax, FieldVal.str s => numericStr s
  | FieldA.codeNaf, FieldVal.str _ => true
  | FieldA.tailleEntreprise, FieldVal.str s =>
      s == "TPE" || s == "PE" || s == "ME" || s == "GE"
  | FieldA.formeJuridique, FieldVal.str _ => true
  | FieldA.caMinimum, FieldVal.str s => numericStr s
  | FieldA.caMaximum, FieldVal.str s => numericStr s
  | FieldA.anneeCreation, FieldVal.str s => numericStr s
  | FieldA.statut, FieldVal.str s => s == "active" || s == "all"
  | FieldA.exclureFranchises, FieldVal.boolean _ => true
  | _, _ => false

/-- Values each variant B control can hand to handleInputChange: the
max-results select only its four options, the fiber radio and the two
selects their fixed option sets, year inputs numeric strings, free text
inputs any string. -/
def allowedB : FieldB → String → Bool
  | FieldB.location, _ => true
  | FieldB.searchTerms, _ => true
  | FieldB.maxResults, v => v == "50" || v == "100" || v == "200" || v == "500"
  | FieldB.fiberEligibility, v =>
      v == "no-fiber" || v == "planned-fiber" || v == "recent-fiber" ||
      v == "already-fiber"
  | FieldB.nafCodes, _ => true
  | FieldB.legalForms, _ => true
  | FieldB.employeeSize, v =>
      v == "all" || v == "micro" || v == "small" || v == "medium" ||
      v == "large"
  | FieldB.creationYearMin, v => numericStr v
  | FieldB.creationYearMax, v => numericStr v
  | FieldB.excludeFranchises, v => v == "no" || v == "yes"

/-- Variant A criteria states reachable from the initial state through the
form controls. -/
inductive ReachableA : FormDataA → Prop where
  | init : ReachableA defaultFormDataA
  | step (fd : FormDataA) (f : FieldA) (v : FieldVal) :
      ReachableA fd → allowedA f v = true →
      ReachableA (handleInputChange fd f v)

/-- Variant B criteria states reachable from the initial state through the
form controls. -/
inductive ReachableB : FormDataB → Prop where
  | init : ReachableB defaultFormDataB
  | step (fd : FormDataB) (f : FieldB) (v : String) :
      ReachableB fd → allowedB f v = true →
      ReachableB (handleInputChange fd f v)

/-- A variant A state whose max-results entry was typed as 7 in the free
number input. -/
def fdNombre7 : FormDataA :=
  handleInputChange defaultFormDataA FieldA.nombreMax (FieldVal.str "7")

/-- A variant A state with revenue minimum 1000 and revenue maximum 100. -/
def fdBadRange : FormDataA :=
  handleInputChange
    (handleInputChange defaultFormDataA FieldA.caMinimum (FieldVal.str "1000"))
    FieldA.caMaximum (FieldVal.str "100")

/-- A failed submission attempt: either the fetch rejected (network
failure) or the response status is outside the 2xx range. -/
def submitFails (res : Except String HttpResponse) : Prop :=
  match res with
  | Except.error _ => True
  | Except.ok r => respOk r = false

/-! ### Helper lemmas -/

/-- filterMap of an if-then-some over a mapped entry list is filter + map. -/
theorem serialize_entries (fd : FormDataA) (l : List FieldA) :
    ((l.map fun f => (keyNameA f, fd f)).filterMap fun kv =>
        if keepVal kv.2 then some (kv.1, valToString kv.2) else none)
      = (l.filter fun f => keepVal (fd f)).map
          fun f => (keyNameA f, valToString (fd f)) := by
  induction l with
  | nil => rfl
  | cons a t ih =>
      cases hp : keepVal (fd a) <;>
        simp [List.filterMap_cons, List.filter_cons, hp, ih]

/-- The multipart body is exactly the kept fields, in entry order. -/
theorem serializeA_eq (fd : FormDataA) :
    serializeA fd = (fieldOrderA.filter fun f => keepVal (fd f)).map
      fun f => (keyNameA f, valToString (fd f)) := by
  unfold serializeA entriesA
  exact serialize_entries fd fieldOrderA

/-- Variant A property keys are pairwise distinct. -/
theorem keyNameA_inj : ∀ f g : FieldA, keyNameA f = keyNameA g → f = g := by
  decide

/-- Every variant A field occurs in the entry order. -/
theorem mem_fieldOrderA : ∀ f : FieldA, f ∈ fieldOrderA := by
  decide

/-- Every variant B field occurs in the entry order. -/
theorem mem_fieldOrderB : ∀ f : FieldB, f ∈ fieldOrderB := by
  decide

/-! ### Claim theorems -/

/-- Claim C1, counterexample. The claim as stated says every field whose
value is empty or equal to its default is absent from the serialized body.
This fails at the concrete input defaultFormDataA with field statut: its
value "active" equals its default, yet the key statut appears in the
multipart body. -/
theorem C1_default_fields_omitted_counterexample :
    ¬ (∀ (fd : FormDataA) (f : FieldA),
        (valToString (fd f) = "" ∨ fd f = defaultFormDataA f) →
        keyNameA f ∉ (serializeA fd).map Prod.fst) := by
  intro h
  exact absurd (by decide : keyNameA FieldA.statut ∈
      (serializeA defaultFormDataA).map Prod.fst)
    (h defaultFormDataA FieldA.statut (Or.inr rfl))

/-- Claim C1, amended. The multipart variant serializes exactly the fields
whose value is a non-empty string or the boolean true: a field appears in
the body if and only if its value passes that filter, so non-empty fields
equal to their default (statut, nombreMax) still appear; the JSON variant
serializes every field unconditionally. -/
theorem C1_serialization_filter_amended :
    (∀ (fd : FormDataA) (f : FieldA),
        ((keyNameA f, valToString (fd f)) ∈ serializeA fd ↔
          keepVal (fd f) = true)) ∧
    (∀ (fd : FormDataB) (f : FieldB), (keyNameB f, fd f) ∈ payloadB fd) := by
  constructor
  · intro fd f
    rw [serializeA_eq]
    constructor
    · intro hmem
      rcases List.mem_map.mp hmem with ⟨g, hg, heq⟩
      rcases List.mem_filter.mp hg with ⟨-, hkeep⟩
      have hgf : g = f := keyNameA_inj g f (congrArg Prod.fst heq)
      rw [hgf] at hkeep
      exact hkeep
    · intro hkeep
      exact List.mem_map.mpr
        ⟨f, List.mem_filter.mpr ⟨mem_fieldOrderA f, hkeep⟩, rfl⟩
  · intro fd f
    exact List.mem_map.mpr ⟨f, mem_fieldOrderB f, rfl⟩

/-- Claim C2, counterexample. In the JSON variant the all-default criteria
produce a payload that also contains the optional, empty field location,
not only the defaulted fields. -/
theorem C2_default_payload_counterexample :
    defaultFormDataB FieldB.location = "" ∧
    ("location", "") ∈ payloadB defaultFormDataB := by
  exact ⟨rfl, by decide⟩

/-- Claim C2, amended. For the all-default criteria, the multipart variant
submits exactly the two non-empty defaulted fields, nombreMax=100 and
statut=active; the JSON variant submits every field with its default
value, including the empty optional fields. -/
theorem C2_default_payload_amended :
    serializeA defaultFormDataA = [("nombreMax", "100"), ("statut", "active")] ∧
    payloadB defaultFormDataB =
      [("location", ""), ("searchTerms", ""), ("maxResults", "100"),
       ("fiberEligibility", "already-fiber"), ("nafCodes", ""),
       ("legalForms", ""), ("employeeSize", "all"), ("creationYearMin", ""),
       ("creationYearMax", ""), ("excludeFranchises", "no")] := by
  exact ⟨by decide, by decide⟩

/-- Claim C7. The form does not enforce min less-or-equal max: the state
fdBadRange, reachable through the revenue number inputs with minimum 1000
and maximum 100, is still serialized and sent, with both bounds present in
the body. -/
theorem C7_no_min_max_validation :
    ReachableA fdBadRange ∧
    ("caMinimum", "1000") ∈ serializeA fdBadRange ∧
    ("caMaximum", "100") ∈ serializeA fdBadRange := by
  refine ⟨?_, by decide, by decide⟩
  exact ReachableA.step _ FieldA.caMaximum (FieldVal.str "100")
    (ReachableA.step _ FieldA.caMinimum (FieldVal.str "1000")
      ReachableA.init (by decide))
    (by decide)

/-- Claim C8. The freshly constructed criteria hold the specified defaults:
status active and exclude-franchises false in the multipart variant, and
connectivity already-fiber and exclude-franchises no (the encoding of
false) in the JSON variant. -/
theorem C8_initial_defaults :
    defaultFormDataA FieldA.statut = FieldVal.str "active" ∧
    defaultFormDataA FieldA.exclureFranchises = FieldVal.boolean false ∧
    defaultFormDataB FieldB.fiberEligibility = "already-fiber" ∧
    defaultFormDataB FieldB.excludeFranchises = "no" := by
  exact ⟨rfl, rfl, rfl, rfl⟩

/-- Claim C3. Every failed submission, network failure or non-2xx status,
produces no download and surfaces the failure through the error toast with
no success toast; a non-2xx response moreover throws the generic error
carrying the numeric status code. -/
theorem C3_failure_handling (p : List (String × String)) (now : Date)
    (res : Except String HttpResponse) (h : submitFails res) :
    (submitCore p now res).download = none ∧
    (submitCore p now res).errorToast = true ∧
    (submitCore p now res).successToast = false ∧
    (∀ r : HttpResponse, res = Except.ok r →
      (submitCore p now res).thrown =
        some ("Erreur HTTP: " ++ toString r.status)) := by
  cases res with
  | error e =>
      refine ⟨rfl, rfl, rfl, ?_⟩
      intro r hr
      exact absurd hr (by simp)
  | ok r =>
      have hok : respOk r = false := h
      refine ⟨?_, ?_, ?_, ?_⟩ <;> simp [submitCore, hok]

/-- Claim C3, witness at a concrete 500 response. -/
theorem C3_failure_handling_witness :
    (submitCore [] ⟨2026, 10, 11⟩ (Except.ok ⟨500, ""⟩)).download = none ∧
    (submitCore [] ⟨2026, 10, 11⟩ (Except.ok ⟨500, ""⟩)).errorToast = true ∧
    (submitCore [] ⟨2026, 10, 11⟩ (Except.ok ⟨500, ""⟩)).successToast = false ∧
    (submitCore [] ⟨2026, 10, 11⟩ (Except.ok ⟨500, ""⟩)).thrown =
      some "Erreur HTTP: 500" := by
  have h := C3_failure_handling [] ⟨2026, 10, 11⟩ (Except.ok ⟨500, ""⟩)
    (show respOk ⟨500, ""⟩ = false by decide)
  exact ⟨h.1, h.2.1, h.2.2.1, by rw [h.2.2.2 ⟨500, ""⟩ rfl]; decide⟩

/-- Claim C4. Every 2xx response leads to a download of exactly the response
body under the filename entreprises_YYYY-MM-DD.csv derived from the current
date, with the success toast shown. -/
theorem C4_success_download (p : List (String × String)) (now : Date)
    (r : HttpResponse) (h : respOk r = true) :
    (submitCore p now (Except.ok r)).download = some (csvFilename now, r.body) ∧
    (submitCore p now (Except.ok r)).successToast = true := by
  constructor <;> simp [submitCore, h]

/-- Claim C4, witness: a 200 response with body "a,b\n1,2" on 2026-10-11 is
saved as entreprises_2026-10-11.csv with exactly that content. -/
theorem C4_success_download_witness :
    (submitCore [] ⟨2026, 10, 11⟩ (Except.ok ⟨200, "a,b\n1,2"⟩)).download =
      some ("entreprises_2026-10-11.csv", "a,b\n1,2") := by
  have h := C4_success_download [] ⟨2026, 10, 11⟩ ⟨200, "a,b\n1,2"⟩ (by decide)
  rw [h.1]
  decide

/-- Claim C5. While a request is in flight the trigger is disabled and a
submit attempt is ignored: no outcome is produced, no request is issued,
and the state is unchanged, for either payload builder. -/
theorem C5_busy_click_ignored {D : Type}
    (serialize : D → List (String × String)) (now : Date) (s : FormState D)
    (res : Except String HttpResponse) (h : s.isLoading = true) :
    triggerDisabled s = true ∧ submitClick serialize now s res = (none, s) := by
  constructor
  · exact h
  · simp [submitClick, h]

/-- Claim C5, witness at a concrete busy state. -/
theorem C5_busy_click_ignored_witness :
    triggerDisabled
      ({ isLoading := true, formData := defaultFormDataA } : FormState FormDataA)
      = true ∧
    submitClick serializeA ⟨2026, 10, 11⟩
      { isLoading := true, formData := defaultFormDataA }
      (Except.error "NetworkError") =
      (none, { isLoading := true, formData := defaultFormDataA }) := by
  exact C5_busy_click_ignored serializeA ⟨2026, 10, 11⟩
    { isLoading := true, formData := defaultFormDataA }
    (Except.error "NetworkError") rfl

/-- Claim C6, counterexample. In the multipart variant the max-results
control is a free number input, not a select: the reachable state fdNombre7
submits nombreMax=7, a value outside the fixed set 50/100/200/500. -/
theorem C6_max_results_counterexample :
    ReachableA fdNombre7 ∧
    ("nombreMax", "7") ∈ serializeA fdNombre7 ∧
    "7" ∉ (["50", "100", "200", "500"] : List String) := by
  refine ⟨?_, by decide, by decide⟩
  exact ReachableA.step _ FieldA.nombreMax (FieldVal.str "7")
    ReachableA.init (by decide)

/-- Claim C6, amended. In the JSON variant the max-results field is a
select with exactly the options 50, 100, 200 and 500, so in every
reachable criteria state, hence in every submitted payload, maxResults is
one of those four values; the multipart variant does not enforce this. -/
theorem C6_max_results_amended (fd : FormDataB) (h : ReachableB fd) :
    fd FieldB.maxResults ∈ (["50", "100", "200", "500"] : List String) := by
  induction h with
  | init => decide
  | step fd0 f v hr ha ih =>
      show handleInputChange fd0 f v FieldB.maxResults ∈ _
      unfold handleInputChange
      by_cases hf : FieldB.maxResults = f
      · rw [if_pos hf]
        rw [← hf] at ha
        have hv : ((v = "50" ∨ v = "100") ∨ v = "200") ∨ v = "500" := by
          simpa [allowedB] using ha
        rcases hv with ((h1 | h1) | h1) | h1 <;> simp [h1]
      · rw [if_neg hf]
        exact ih

/-- Claim C6, amended, witness: the initial JSON-variant state is reachable
and its maxResults value 100 lies in the allowed set. -/
theorem C6_max_results_amended_witness :
    defaultFormDataB FieldB.maxResults ∈
      (["50", "100", "200", "500"] : List String) :=
  C6_max_results_amended defaultFormDataB ReachableB.init

/-- Claim C9. handleInputChange updates exactly the named field to the
given value and leaves every other field unchanged. -/
theorem C9_input_change_frame {F V : Type} [DecidableEq F]
    (prev : F → V) (f : F) (v : V) :
    handleInputChange prev f v f = v ∧
    ∀ g : F, g ≠ f → handleInputChange prev f v g = prev g := by
  constructor
  · simp [handleInputChange]
  · intro g hg
    simp [handleInputChange, hg]

/-- Claim C9, witness: setting ville to Paris stores Paris in ville and
leaves region at its previous (empty) value. -/
theorem C9_input_change_frame_witness :
    handleInputChange defaultFormDataA FieldA.ville (FieldVal.str "Paris")
      FieldA.ville = FieldVal.str "Paris" ∧
    handleInputChange defaultFormDataA FieldA.ville (FieldVal.str "Paris")
      FieldA.region = FieldVal.str "" := by
  have h := C9_input_change_frame defaultFormDataA FieldA.ville
    (FieldVal.str "Paris")
  refine ⟨h.1, ?_⟩
  rw [h.2 FieldA.region (by decide)]
  rfl

/-- Claim C10. For either payload builder, after a full run of handleSubmit
settles, on success as on every failure path, the busy flag is false and
the criteria are exactly the criteria the run started from. -/
theorem C10_settle_resets_state {D : Type}
    (serialize : D → List (String × String)) (now : Date) (s : FormState D)
    (res : Except String HttpResponse) :
    (handleSubmitFull serialize now s res).2.isLoading = false ∧
    (handleSubmitFull serialize now s res).2.formData = s.formData := by
  exact ⟨rfl, rfl⟩
